import Mathlib

/-!
Verification of the connection-coordination layer of the `bluetti_bt`
Home Assistant integration, as implemented in
`custom_components/bluetti_bt/select.py` and
`custom_components/bluetti_bt/__init__.py`.

The embedding is shallow: the entity's mutable attributes become a record
`SelectState`, the coordinator-update callback becomes a pure state
transformer, and the asynchronous write path becomes a function producing
the final state, a trace of externally observable events (state
publications, the device exchange, the settle delay, the follow-up
refresh) and the call's result.  Exchange outcomes (success / TimeoutError
/ other exception) are an explicit parameter, since they are produced by
the external `bluetti_bt_lib.DeviceWriter`.
-/

namespace BluettiBT

/-- A field value delivered in a coordinator snapshot.  `enumVal t n` is an
instance of the enum class identified by `t` whose `.name` is `n`; `other`
is any value that is not an instance of any select field's enum class
(the `isinstance(response_data, self._field.e)` check fails on it). -/
inductive FieldValue
  | enumVal (enumId : String) (name : String)
  | other
deriving DecidableEq, Repr

/-- The select field metadata used by `BluettiSelect`: `name` is
`field.name` (also the `_response_key`), and `enumId` identifies the enum
class `field.e` used for the `isinstance` type check. -/
structure SelectField where
  name : String
  enumId : String
deriving DecidableEq, Repr

/-- The value of `self.coordinator.data` as seen by
`_handle_coordinator_update`: `none` models Python `None`, `invalid`
models any non-`dict` value, and `dict entries` models a dictionary,
with `entries.lookup key` standing for `data.get(key)`. -/
inductive CoordData
  | none
  | invalid
  | dict (entries : List (String × FieldValue))
deriving DecidableEq, Repr

/-- The `_attr_extra_state_attributes` dictionary: `_set_available` resets
it to `{}`; `_set_unavailable` sets the three keys `unavailable_counter`,
`unavailable_cause` and `data_stale: True`. -/
inductive ExtraAttrs
  | empty
  | stale (unavailable_counter : Nat) (unavailable_cause : String)
deriving DecidableEq, Repr

/-- The mutable attributes of one `BluettiSelect` entity that the claims
are about. -/
structure SelectState where
  current_option : Option String
  attr_available : Bool
  unavailable_counter : Nat
  extra_state_attributes : ExtraAttrs
  write_in_progress : Bool
deriving DecidableEq, Repr

/-- `BluettiSelect.__init__`: `_unavailable_counter = 5`,
`_attr_available = False`, `_write_in_progress = False`; `current_option`
starts unset (`None`). -/
def initState : SelectState :=
  { current_option := Option.none
    attr_available := false
    unavailable_counter := 5
    extra_state_attributes := ExtraAttrs.empty
    write_in_progress := false }

/-- The `available` property: returns `self._attr_available`. -/
def SelectState.available (s : SelectState) : Bool :=
  s.attr_available

/-- `BluettiSelect._set_available`: marks the entity available, resets the
unavailable counter to 0 and clears the extra state attributes. -/
def setAvailable (s : SelectState) : SelectState :=
  { s with
    attr_available := true
    unavailable_counter := 0
    extra_state_attributes := ExtraAttrs.empty }

/-- `BluettiSelect._set_unavailable`: increments the unavailable counter
and records the staleness attributes; it deliberately does NOT change
`_attr_available` or the current value. -/
def setUnavailable (s : SelectState) (cause : String) : SelectState :=
  { s with
    unavailable_counter := s.unavailable_counter + 1
    extra_state_attributes :=
      ExtraAttrs.stale (s.unavailable_counter + 1) cause }

/-- `BluettiSelect._handle_coordinator_update`: returns immediately while
a write is in progress; otherwise classifies the snapshot (absent, not a
dict, key missing, wrong type, valid) and updates availability state and,
on valid data, the current option. -/
def handleCoordinatorUpdate (f : SelectField) (s : SelectState)
    (d : CoordData) : SelectState :=
  if s.write_in_progress then s
  else
    match d with
    | CoordData.none => setUnavailable s "Data is None"
    | CoordData.invalid => setUnavailable s "Invalid data"
    | CoordData.dict entries =>
      match entries.lookup f.name with
      | Option.none => setUnavailable s "No data"
      | Option.some FieldValue.other => setUnavailable s "Invalid data type"
      | Option.some (FieldValue.enumVal t n) =>
        if t = f.enumId then
          { setAvailable s with current_option := Option.some n }
        else setUnavailable s "Invalid data type"

/-- A sequence of coordinator-update deliveries applied in order. -/
def runUpdates (f : SelectField) (s : SelectState)
    (ds : List CoordData) : SelectState :=
  ds.foldl (handleCoordinatorUpdate f) s

/-- Whether a snapshot yields valid, correctly typed data for the field:
the data is a dict, the key is present, and the value is an instance of
the field's enum class.  This is exactly the condition under which
`_handle_coordinator_update` (with no write in progress) reaches
`_set_available`. -/
def fieldValid (f : SelectField) (d : CoordData) : Bool :=
  match d with
  | CoordData.dict entries =>
    match entries.lookup f.name with
    | Option.some (FieldValue.enumVal t _) => t = f.enumId
    | _ => false
  | _ => false

/- ### The write path -/

/-- The poller's BLE client as inspected by `write_to_device`:
`is_connected` is the bleak client's connection predicate. -/
structure Client where
  is_connected : Bool
deriving DecidableEq, Repr

/-- The poller's encryption/session object: `is_ready_for_commands` holds
once the encryption handshake is fully established. -/
structure Encryption where
  is_ready_for_commands : Bool
deriving DecidableEq, Repr

/-- The poller's reader, holding an optional client handle and an optional
encryption object (`None` in Python becomes `Option.none`). -/
structure Reader where
  client : Option Client
  encryption : Option Encryption
deriving DecidableEq, Repr

/-- The slice of the `PollingCoordinator` that `write_to_device` inspects:
`Option.none` for `reader` models `hasattr(self.coordinator, 'reader')`
being false. -/
structure Coordinator where
  reader : Option Reader
deriving DecidableEq, Repr

/-- The connection-reuse predicate of `BluettiSelect.write_to_device`,
mirroring the short-circuit conjunction: `hasattr(coordinator, 'reader')`
and `reader.client is not None` and `reader.client.is_connected` and
`reader.encryption is not None` and
`reader.encryption.is_ready_for_commands`. -/
def canReuse (c : Coordinator) : Bool :=
  match c.reader with
  | Option.none => false
  | Option.some r =>
    match r.client with
    | Option.none => false
    | Option.some cl =>
      if cl.is_connected then
        match r.encryption with
        | Option.none => false
        | Option.some e => e.is_ready_for_commands
      else false

/-- The timeout passed into `DeviceWriterConfig`: 10 when the poller's
connection is reused, 45 otherwise. -/
def writeTimeout (c : Coordinator) : Nat :=
  if canReuse c then 10 else 45

/-- Outcome of the device exchange performed by `DeviceWriter.write`
(external library code): it completes, raises `TimeoutError`, or raises
some other exception `e`. -/
inductive ExchangeOutcome
  | success
  | timeout
  | error (e : String)
deriving DecidableEq, Repr

/-- Externally observable events of the write path, in program order:
`publish` is `async_write_ha_state` with the published current option and
write-in-progress flag; `deviceWrite` is the exchange with its field,
value, resolved timeout and whether a shared connection was used;
`settle` is the `asyncio.sleep` settle delay; `refresh` is the follow-up
`coordinator.async_refresh()` call, carrying whether that refresh
succeeded. -/
inductive Event
  | publish (current_option : Option String) (write_in_progress : Bool)
  | deviceWrite (field : String) (value : String) (timeout : Nat)
      (sharedConn : Bool)
  | settle (seconds : Nat)
  | refresh (ok : Bool)
deriving DecidableEq, Repr

/-- The result of `write_to_device` as seen by its caller: `returned`
when the coroutine returns `None` (normal completion, or the
`except TimeoutError` branch), `raised e` when exception `e`
propagates. -/
inductive WriteResult
  | returned
  | raised (e : String)
deriving DecidableEq, Repr

/-- `BluettiSelect.write_to_device`: decides connection reuse and timeout,
performs the exchange, sleeps 3 seconds on success, catches
`TimeoutError` (returning `None`), lets other exceptions propagate, and
in a `finally` block always clears `_write_in_progress`; after the
`try`/`finally`, on the success path only, it awaits
`coordinator.async_refresh()`.  The refresh itself is the
`PollingCoordinator`'s; modelled from the spec: `refresh()` reports
`DataSnapshot | Error` rather than raising, so its outcome `refreshOk` is
recorded in the trace but never alters the state or result. -/
def write_to_device (f : SelectField) (c : Coordinator) (s : SelectState)
    (state : String) (outcome : ExchangeOutcome) (refreshOk : Bool) :
    SelectState × List Event × WriteResult :=
  let reuse := canReuse c
  let timeout := writeTimeout c
  match outcome with
  | ExchangeOutcome.success =>
    ({ s with write_in_progress := false },
     [Event.deviceWrite f.name state timeout reuse, Event.settle 3,
      Event.refresh refreshOk],
     WriteResult.returned)
  | ExchangeOutcome.timeout =>
    ({ s with write_in_progress := false },
     [Event.deviceWrite f.name state timeout reuse],
     WriteResult.returned)
  | ExchangeOutcome.error e =>
    ({ s with write_in_progress := false },
     [Event.deviceWrite f.name state timeout reuse],
     WriteResult.raised e)

/-- `BluettiSelect.async_select_option`: optimistically sets
`current_option` to the requested option, sets `_write_in_progress`,
publishes that state (`async_write_ha_state`), then awaits
`write_to_device`. -/
def async_select_option (f : SelectField) (c : Coordinator)
    (s : SelectState) (option : String) (outcome : ExchangeOutcome)
    (refreshOk : Bool) : SelectState × List Event × WriteResult :=
  let s1 := { s with
    current_option := Option.some option
    write_in_progress := true }
  let res := write_to_device f c s1 option outcome refreshOk
  (res.1, Event.publish s1.current_option s1.write_in_progress :: res.2.1,
   res.2.2)

/- ### Startup bootstrap (`__init__.py`, `async_setup_entry`) -/

/-- Observable events of the bootstrap retry loop: a refresh `attempt`
numbered from 1, and a `wait` of the inter-attempt delay in seconds. -/
inductive BootEvent
  | attempt (n : Nat)
  | wait (seconds : Nat)
deriving DecidableEq, Repr

/-- `max_initial_attempts = 5` in `async_setup_entry`. -/
def maxInitialAttempts : Nat := 5

/-- `initial_retry_delay = 5  # seconds between retries`. -/
def initialRetryDelay : Nat := 5

/-- The `for attempt in range(1, max_initial_attempts + 1)` loop of
`async_setup_entry`, with `outcomes i` telling whether the i-th
`async_config_entry_first_refresh` call succeeds (the refresh is the
`PollingCoordinator`'s; modelled from the spec: each attempt either
succeeds or fails, and the loop sees only that).  On success the loop
breaks; on failure with `attempt < max_initial_attempts` it sleeps
`initial_retry_delay` and retries; the failure of the final attempt is
logged and swallowed.  `remaining` counts the attempts still allowed and
drives the structural recursion. -/
def bootstrapGo (outcomes : Nat → Bool) : Nat → Nat → List BootEvent
  | _, 0 => []
  | attempt, remaining + 1 =>
    BootEvent.attempt attempt ::
      (if outcomes attempt then []
       else if remaining = 0 then []
       else BootEvent.wait initialRetryDelay ::
         bootstrapGo outcomes (attempt + 1) remaining)

/-- How `async_setup_entry` terminates: `notReady` when
`ConfigEntryNotReady` is raised (device absent), `failed` when it returns
`False` (config missing), `ok` when it returns `True`. -/
inductive SetupResult
  | notReady
  | failed
  | ok
deriving DecidableEq, Repr

/-- `async_setup_entry` from `__init__.py`: returns `False` when the
config cannot be parsed, raises `ConfigEntryNotReady` when the device
address is not present, and otherwise runs the bootstrap retry loop and
returns `True` — regardless of how the loop's attempts fared. -/
def async_setup_entry (configOk : Bool) (addressPresent : Bool)
    (outcomes : Nat → Bool) : List BootEvent × SetupResult :=
  if ¬configOk then ([], SetupResult.failed)
  else if ¬addressPresent then ([], SetupResult.notReady)
  else (bootstrapGo outcomes 1 maxInitialAttempts, SetupResult.ok)

/-- The attempt count the claim describes: the first attempt number at
which the refresh succeeds, capped at 5 when none of the first five
succeed. -/
def specAttempts (outcomes : Nat → Bool) : Nat :=
  if outcomes 1 then 1
  else if outcomes 2 then 2
  else if outcomes 3 then 3
  else if outcomes 4 then 4
  else 5

/-- The bootstrap trace the claim describes, stated from the spec's
words: attempts run from 1 up to the first success (or 5); each failed
attempt among 1–4 is followed by a 5-second wait; a failed 5th attempt is
swallowed with no wait. -/
def bootSpecTrace (outcomes : Nat → Bool) : List BootEvent :=
  (List.range' 1 (specAttempts outcomes)).flatMap (fun i =>
    if outcomes i then [BootEvent.attempt i]
    else if i < 5 then [BootEvent.attempt i, BootEvent.wait 5]
    else [BootEvent.attempt i])

/-- Number of refresh attempts in a bootstrap trace. -/
def countAttempts (evs : List BootEvent) : Nat :=
  (evs.filter (fun e =>
    match e with
    | BootEvent.attempt _ => true
    | _ => false)).length

/-! ## Helper lemmas -/

/-- The coordinator-update callback never changes the write-in-progress
flag: only `async_select_option` sets it and `write_to_device` clears
it. -/
theorem handleCoordinatorUpdate_wip (f : SelectField) (s : SelectState)
    (d : CoordData) :
    (handleCoordinatorUpdate f s d).write_in_progress =
      s.write_in_progress := by
  by_cases hw : s.write_in_progress
  · simp [handleCoordinatorUpdate, hw]
  · cases d with
    | none => simp [handleCoordinatorUpdate, hw, setUnavailable]
    | invalid => simp [handleCoordinatorUpdate, hw, setUnavailable]
    | dict entries =>
      cases hl : entries.lookup f.name with
      | none => simp [handleCoordinatorUpdate, hw, hl, setUnavailable]
      | some v =>
        cases v with
        | other => simp [handleCoordinatorUpdate, hw, hl, setUnavailable]
        | enumVal t n =>
          by_cases ht : t = f.enumId <;>
            simp [handleCoordinatorUpdate, hw, hl, ht, setUnavailable,
              setAvailable]

/-- With no write in progress, an update with invalid data increments the
counter by one, records staleness attributes, and leaves the current
option and the availability flag untouched. -/
theorem handle_invalid_effect (f : SelectField) (s : SelectState)
    (d : CoordData) (hw : s.write_in_progress = false)
    (hv : fieldValid f d = false) :
    (handleCoordinatorUpdate f s d).unavailable_counter =
        s.unavailable_counter + 1 ∧
    (handleCoordinatorUpdate f s d).current_option = s.current_option ∧
    (handleCoordinatorUpdate f s d).attr_available = s.attr_available ∧
    ∃ cause, (handleCoordinatorUpdate f s d).extra_state_attributes =
      ExtraAttrs.stale (s.unavailable_counter + 1) cause := by
  cases d with
  | none => simp [handleCoordinatorUpdate, hw, setUnavailable]
  | invalid => simp [handleCoordinatorUpdate, hw, setUnavailable]
  | dict entries =>
    cases hl : entries.lookup f.name with
    | none => simp [handleCoordinatorUpdate, hw, hl, setUnavailable]
    | some v =>
      cases v with
      | other => simp [handleCoordinatorUpdate, hw, hl, setUnavailable]
      | enumVal t n =>
        have ht : ¬ t = f.enumId := by
          intro ht
          simp [fieldValid, hl, ht] at hv
        simp [handleCoordinatorUpdate, hw, hl, ht, setUnavailable]

/-- With no write in progress, an update with valid data resets the
counter to zero, marks the entity available, clears the staleness
attributes and stores the delivered option. -/
theorem handle_valid_effect (f : SelectField) (s : SelectState)
    (d : CoordData) (hw : s.write_in_progress = false)
    (hv : fieldValid f d = true) :
    (handleCoordinatorUpdate f s d).unavailable_counter = 0 ∧
    (handleCoordinatorUpdate f s d).attr_available = true ∧
    (handleCoordinatorUpdate f s d).extra_state_attributes =
      ExtraAttrs.empty := by
  cases d with
  | none => simp [fieldValid] at hv
  | invalid => simp [fieldValid] at hv
  | dict entries =>
    cases hl : entries.lookup f.name with
    | none => simp [fieldValid, hl] at hv
    | some v =>
      cases v with
      | other => simp [fieldValid, hl] at hv
      | enumVal t n =>
        have ht : t = f.enumId := by
          simpa [fieldValid, hl] using hv
        simp [handleCoordinatorUpdate, hw, hl, ht, setAvailable]

/-- A single update never turns an available entity unavailable. -/
theorem handle_available_mono (f : SelectField) (s : SelectState)
    (d : CoordData) (h : s.attr_available = true) :
    (handleCoordinatorUpdate f s d).attr_available = true := by
  by_cases hw : s.write_in_progress
  · simpa [handleCoordinatorUpdate, hw]
  · cases d with
    | none => simpa [handleCoordinatorUpdate, hw, setUnavailable]
    | invalid => simpa [handleCoordinatorUpdate, hw, setUnavailable]
    | dict entries =>
      cases hl : entries.lookup f.name with
      | none => simpa [handleCoordinatorUpdate, hw, hl, setUnavailable]
      | some v =>
        cases v with
        | other => simpa [handleCoordinatorUpdate, hw, hl, setUnavailable]
        | enumVal t n =>
          by_cases ht : t = f.enumId
          · simp [handleCoordinatorUpdate, hw, hl, ht, setAvailable]
          · simpa [handleCoordinatorUpdate, hw, hl, ht, setUnavailable]

/-- Over a run of deliveries that all fail for the field (and no write in
progress), the counter grows by exactly the length of the run. -/
theorem runUpdates_all_invalid (f : SelectField) (ds : List CoordData) :
    ∀ s : SelectState, s.write_in_progress = false →
      (∀ d ∈ ds, fieldValid f d = false) →
      (runUpdates f s ds).unavailable_counter =
        s.unavailable_counter + ds.length := by
  induction ds with
  | nil => intro s _ _; simp [runUpdates]
  | cons d ds ih =>
    intro s hw hall
    have h1 := handle_invalid_effect f s d hw
      (hall d (List.mem_cons_self d ds))
    have h2 := handleCoordinatorUpdate_wip f s d
    have hstep : runUpdates f s (d :: ds) =
        runUpdates f (handleCoordinatorUpdate f s d) ds := by
      simp [runUpdates]
    rw [hstep, ih (handleCoordinatorUpdate f s d) (by rw [h2, hw])
      (fun d' hd' => hall d' (List.mem_cons_of_mem d hd')), h1.1]
    simp only [List.length_cons]
    omega

/-- Availability, once set, survives any further sequence of coordinator
updates. -/
theorem runUpdates_available_mono (f : SelectField) (ds : List CoordData) :
    ∀ s : SelectState, s.attr_available = true →
      (runUpdates f s ds).attr_available = true := by
  induction ds with
  | nil => intro s h; simpa [runUpdates]
  | cons d ds ih =>
    intro s h
    have hstep : runUpdates f s (d :: ds) =
        runUpdates f (handleCoordinatorUpdate f s d) ds := by
      simp [runUpdates]
    rw [hstep]
    exact ih _ (handle_available_mono f s d h)

/-- The write path never changes the availability flag. -/
theorem write_to_device_available (f : SelectField) (c : Coordinator)
    (s : SelectState) (v : String) (outcome : ExchangeOutcome)
    (rOk : Bool) :
    (write_to_device f c s v outcome rOk).1.attr_available =
      s.attr_available := by
  cases outcome <;> simp [write_to_device]

/-! ## Claim theorems -/

/-- C1: while `writeInProgress` is true for a field, a coordinator-update
delivery returns without changing the entity's state at all (in
particular its current value, availability flag, unavailable counter and
staleness attributes), and the suppression lasts until the write
resolves: on every exchange outcome (success, timeout or other error) the
write operation terminates with `writeInProgress` false. -/
theorem C1_write_suppresses_coordinator_update (f : SelectField)
    (c : Coordinator) (s : SelectState) (d : CoordData) (v : String)
    (outcome : ExchangeOutcome) (rOk : Bool)
    (h : s.write_in_progress = true) :
    handleCoordinatorUpdate f s d = s ∧
    (write_to_device f c s v outcome rOk).1.write_in_progress = false := by
  constructor
  · simp [handleCoordinatorUpdate, h]
  · cases outcome <;> simp [write_to_device]

/-- Witness for C1 at a concrete entity state with a write in flight. -/
theorem C1_witness :
    handleCoordinatorUpdate ⟨"ctrl", "CtrlEnum"⟩
        { initState with write_in_progress := true } CoordData.none =
      { initState with write_in_progress := true } ∧
    (write_to_device ⟨"ctrl", "CtrlEnum"⟩ ⟨Option.none⟩
        { initState with write_in_progress := true } "ON"
        ExchangeOutcome.success true).1.write_in_progress = false :=
  C1_write_suppresses_coordinator_update ⟨"ctrl", "CtrlEnum"⟩
    ⟨Option.none⟩ { initState with write_in_progress := true }
    CoordData.none "ON" ExchangeOutcome.success true rfl

/-- C2: the write path reuses the poller's connection with timeout 10
exactly when, at decision time, the reader and its client handle exist,
the client is connected, and the encryption session exists and is ready
for commands; in every other case the exchange uses no shared connection
and timeout 45.  The first trace event records the exchange's timeout and
whether a shared connection was used. -/
theorem C2_connection_reuse_decision (f : SelectField) (c : Coordinator)
    (s : SelectState) (v : String) (outcome : ExchangeOutcome)
    (rOk : Bool) :
    (write_to_device f c s v outcome rOk).2.1.head? =
      Option.some (Event.deviceWrite f.name v
        (if canReuse c then 10 else 45) (canReuse c)) ∧
    (canReuse c = true ↔
      ∃ r, c.reader = Option.some r ∧
        ∃ cl, r.client = Option.some cl ∧ cl.is_connected = true ∧
          ∃ e, r.encryption = Option.some e ∧
            e.is_ready_for_commands = true) := by
  constructor
  · cases outcome <;> simp [write_to_device, writeTimeout]
  · obtain ⟨reader⟩ := c
    cases reader with
    | none => simp [canReuse]
    | some r =>
      obtain ⟨cl?, enc?⟩ := r
      cases cl? with
      | none => simp [canReuse]
      | some cl =>
        cases enc? with
        | none => simp [canReuse]
        | some e =>
          by_cases hc : cl.is_connected <;> simp [canReuse, hc]

/-- C3: on every exit path of the write operation — success, timeout, or
any other exception — `writeInProgress` is false when the operation
terminates (the `finally` block always clears it). -/
theorem C3_writeInProgress_cleared_on_every_exit (f : SelectField)
    (c : Coordinator) (s : SelectState) (v : String)
    (outcome : ExchangeOutcome) (rOk : Bool) :
    (write_to_device f c s v outcome rOk).1.write_in_progress = false := by
  cases outcome <;> simp [write_to_device]

/-- C7: selecting an option publishes the optimistically updated state —
current value equal to the requested option and `writeInProgress` true —
strictly before the device exchange: the publish event is the first trace
event and the exchange is the second. -/
theorem C7_optimistic_state_published_before_exchange (f : SelectField)
    (c : Coordinator) (s : SelectState) (option : String)
    (outcome : ExchangeOutcome) (rOk : Bool) :
    (async_select_option f c s option outcome rOk).2.1.head? =
      Option.some (Event.publish (Option.some option) true) ∧
    (async_select_option f c s option outcome rOk).2.1.tail.head? =
      Option.some (Event.deviceWrite f.name option (writeTimeout c)
        (canReuse c)) := by
  cases outcome <;> simp [async_select_option, write_to_device]

/-- C8: when the device exchange completes successfully, the trace is
exactly the exchange, a 3-second settle delay, and one follow-up refresh;
the call's result is `returned` for every refresh outcome `rOk`, so the
reported outcome of the write does not depend on whether the refresh
succeeds. -/
theorem C8_settle_then_single_refresh_on_success (f : SelectField)
    (c : Coordinator) (s : SelectState) (v : String) (rOk : Bool) :
    (write_to_device f c s v ExchangeOutcome.success rOk).2.1 =
      [Event.deviceWrite f.name v (writeTimeout c) (canReuse c),
       Event.settle 3, Event.refresh rOk] ∧
    (write_to_device f c s v ExchangeOutcome.success rOk).2.2 =
      WriteResult.returned := by
  constructor <;> rfl

/-- C10: on `TimeoutError` the write returns `None` with a trace holding
only the exchange — no settle delay and no follow-up refresh; on any
other exception the exception propagates, likewise with no settle and no
refresh; in both cases `writeInProgress` ends up false. -/
theorem C10_timeout_returns_error_propagates (f : SelectField)
    (c : Coordinator) (s : SelectState) (v : String) (e : String)
    (rOk : Bool) :
    write_to_device f c s v ExchangeOutcome.timeout rOk =
      ({ s with write_in_progress := false },
       [Event.deviceWrite f.name v (writeTimeout c) (canReuse c)],
       WriteResult.returned) ∧
    write_to_device f c s v (ExchangeOutcome.error e) rOk =
      ({ s with write_in_progress := false },
       [Event.deviceWrite f.name v (writeTimeout c) (canReuse c)],
       WriteResult.raised e) := by
  constructor <;> rfl

/-- An example select field used to instantiate witnesses. -/
def fEx : SelectField := ⟨"ctrl", "CtrlEnum"⟩

/-- An example snapshot yielding valid data for `fEx`. -/
def dGood : CoordData :=
  CoordData.dict [("ctrl", FieldValue.enumVal "CtrlEnum" "ON")]

/-- An example failing snapshot (`coordinator.data is None`). -/
def dBad : CoordData := CoordData.none

/-- C4: with no write in progress, the unavailable counter is reset to
exactly 0 on every update whose snapshot yields valid, correctly typed
data for the field, and incremented by exactly 1 on every update where
the snapshot is absent, not a mapping, missing the field, or mistyped;
consequently over any run of consecutive failing deliveries the counter
never decreases. -/
theorem C4_counter_reset_and_increment (f : SelectField)
    (s : SelectState) (d : CoordData) (ds : List CoordData)
    (hw : s.write_in_progress = false) :
    (fieldValid f d = true →
      (handleCoordinatorUpdate f s d).unavailable_counter = 0) ∧
    (fieldValid f d = false →
      (handleCoordinatorUpdate f s d).unavailable_counter =
        s.unavailable_counter + 1) ∧
    ((∀ d' ∈ ds, fieldValid f d' = false) →
      s.unavailable_counter ≤
        (runUpdates f s ds).unavailable_counter) := by
  refine ⟨fun hv => (handle_valid_effect f s d hw hv).1,
    fun hv => (handle_invalid_effect f s d hw hv).1, fun hall => ?_⟩
  rw [runUpdates_all_invalid f ds s hw hall]
  exact Nat.le_add_right _ _

/-- Witness for C4 at the example field, a valid and an invalid
delivery. -/
theorem C4_witness :
    (fieldValid fEx dGood = true →
      (handleCoordinatorUpdate fEx initState dGood).unavailable_counter
        = 0) ∧
    (fieldValid fEx dGood = false →
      (handleCoordinatorUpdate fEx initState dGood).unavailable_counter
        = initState.unavailable_counter + 1) ∧
    ((∀ d' ∈ [dBad, dBad], fieldValid fEx d' = false) →
      initState.unavailable_counter ≤
        (runUpdates fEx initState [dBad, dBad]).unavailable_counter) :=
  C4_counter_reset_and_increment fEx initState dGood [dBad, dBad] rfl

/-- C5: once a successful snapshot has included the field (a valid
delivery with no write in progress), the availability query returns true
after any further sequence of updates and also across a write operation;
and any failed update leaves the last-known current value unchanged,
exposing only staleness metadata — a counter, a cause, and the stale
flag — in the extra state attributes. -/
theorem C5_availability_latched (f : SelectField) (c : Coordinator)
    (s s' : SelectState) (d d' : CoordData) (ds : List CoordData)
    (v : String) (outcome : ExchangeOutcome) (rOk : Bool)
    (hw : s.write_in_progress = false) (hv : fieldValid f d = true) :
    (runUpdates f (handleCoordinatorUpdate f s d) ds).available = true ∧
    (write_to_device f c
        (runUpdates f (handleCoordinatorUpdate f s d) ds) v outcome
        rOk).1.available = true ∧
    (s'.write_in_progress = false → fieldValid f d' = false →
      (handleCoordinatorUpdate f s' d').current_option =
        s'.current_option ∧
      ∃ cause, (handleCoordinatorUpdate f s' d').extra_state_attributes =
        ExtraAttrs.stale (s'.unavailable_counter + 1) cause) := by
  have havail : (runUpdates f (handleCoordinatorUpdate f s d)
      ds).attr_available = true :=
    runUpdates_available_mono f ds _ (handle_valid_effect f s d hw hv).2.1
  refine ⟨havail, ?_, fun hw' hv' =>
    ⟨(handle_invalid_effect f s' d' hw' hv').2.1,
     (handle_invalid_effect f s' d' hw' hv').2.2.2⟩⟩
  show (write_to_device f c _ v outcome rOk).1.attr_available = true
  rw [write_to_device_available]
  exact havail

/-- Witness for C5: a valid delivery latches availability through a
failing delivery and a timed-out write; a failing delivery keeps the
current value. -/
theorem C5_witness :
    (runUpdates fEx (handleCoordinatorUpdate fEx initState dGood)
      [dBad]).available = true ∧
    (write_to_device fEx ⟨Option.none⟩
        (runUpdates fEx (handleCoordinatorUpdate fEx initState dGood)
          [dBad]) "ON" ExchangeOutcome.timeout true).1.available = true ∧
    (initState.write_in_progress = false → fieldValid fEx dBad = false →
      (handleCoordinatorUpdate fEx initState dBad).current_option =
        initState.current_option ∧
      ∃ cause,
        (handleCoordinatorUpdate fEx initState dBad).extra_state_attributes
          = ExtraAttrs.stale (initState.unavailable_counter + 1) cause) :=
  C5_availability_latched fEx ⟨Option.none⟩ initState initState dGood
    dBad [dBad] "ON" ExchangeOutcome.timeout true rfl rfl

/-- C9: a newly constructed entity starts with unavailable counter 5 and
availability false; the first failing delivery therefore reports counter
6; and as long as no delivery yields valid data, the counter never equals
0 — it first reaches 0 only through a successful snapshot. -/
theorem C9_initial_counter_five (f : SelectField) (d : CoordData)
    (h : fieldValid f d = false) :
    initState.unavailable_counter = 5 ∧
    initState.available = false ∧
    (handleCoordinatorUpdate f initState d).unavailable_counter = 6 ∧
    ∀ ds : List CoordData, (∀ d' ∈ ds, fieldValid f d' = false) →
      (runUpdates f initState ds).unavailable_counter ≠ 0 := by
  refine ⟨rfl, rfl, ?_, fun ds hall => ?_⟩
  · rw [(handle_invalid_effect f initState d rfl h).1]
    rfl
  · rw [runUpdates_all_invalid f ds initState rfl hall]
    simp [initState]

/-- Witness for C9 at the example field and a `None` snapshot. -/
theorem C9_witness :
    initState.unavailable_counter = 5 ∧
    initState.available = false ∧
    (handleCoordinatorUpdate fEx initState dBad).unavailable_counter = 6 ∧
    ∀ ds : List CoordData, (∀ d' ∈ ds, fieldValid fEx d' = false) →
      (runUpdates fEx initState ds).unavailable_counter ≠ 0 :=
  C9_initial_counter_five fEx dBad rfl

/-- C6: for every sequence of first-refresh outcomes, the bootstrap loop
of `async_setup_entry` produces exactly the trace the spec describes —
at most 5 attempts, a 5-second wait after each failed attempt among 1–4,
an immediate stop on the first success, and a swallowed failure on
attempt 5 — and setup returns `True` regardless of the outcomes. -/
theorem C6_bootstrap_bounded_retry (outcomes : Nat → Bool) :
    (async_setup_entry true true outcomes).1 = bootSpecTrace outcomes ∧
    countAttempts (async_setup_entry true true outcomes).1 ≤ 5 ∧
    (async_setup_entry true true outcomes).2 = SetupResult.ok := by
  have htrace : (async_setup_entry true true outcomes).1 =
      bootSpecTrace outcomes := by
    show bootstrapGo outcomes 1 maxInitialAttempts = bootSpecTrace outcomes
    cases h1 : outcomes 1 <;> cases h2 : outcomes 2 <;>
      cases h3 : outcomes 3 <;> cases h4 : outcomes 4 <;>
      cases h5 : outcomes 5 <;>
      simp [bootstrapGo, bootSpecTrace, specAttempts, maxInitialAttempts,
        initialRetryDelay, List.range', h1, h2, h3, h4, h5]
  refine ⟨htrace, ?_, rfl⟩
  rw [htrace]
  cases h1 : outcomes 1 <;> cases h2 : outcomes 2 <;>
    cases h3 : outcomes 3 <;> cases h4 : outcomes 4 <;>
    cases h5 : outcomes 5 <;>
    simp [bootSpecTrace, specAttempts, countAttempts, List.range',
      h1, h2, h3, h4, h5]

end BluettiBT
